import Mathlib

/-!
Verification development for the pytrends-modern repository.

Shallow embedding of the parts of `pytrends_modern/request.py`,
`pytrends_modern/rss.py` and `pytrends_modern/utils.py` relevant to the
payload builder, token exchange, precondition guards, cookie acquisition,
time-series decoding, RSS traffic parsing and geo-code normalization.
Python strings are modelled at character-list or `String` level; machine
state is modelled by explicit record passing.
-/

/-- Characters of a Python string with every occurrence of one character
removed: the character-level meaning of `s.replace(c, "")` for a
single-character pattern. -/
def removeChar (c : Char) (s : List Char) : List Char :=
  s.filter (fun d => d ≠ c)

/-- Python `s.split(",")` at character level: split into the (always
non-empty) list of comma-separated fields. -/
def splitComma : List Char → List (List Char)
  | [] => [[]]
  | c :: cs =>
    if c = ',' then [] :: splitComma cs
    else
      match splitComma cs with
      | [] => [[c]]
      | p :: ps => (c :: p) :: ps

/-- Value of an ASCII digit character, if it is one. -/
def charDigit? (c : Char) : Option Nat :=
  if '0' ≤ c ∧ c ≤ '9' then some (c.toNat - '0'.toNat) else none

/-- Parse a non-empty all-digit character list as a natural number;
`none` otherwise.  Models the success domain of Python `int(...)` on the
unsigned strings appearing in this repository. -/
def parseNat? (cs : List Char) : Option Nat :=
  if cs = [] then none
  else cs.foldl (fun acc c => acc.bind (fun n => (charDigit? c).map (fun d => n * 10 + d))) (some 0)

/-- Parse an optionally `-`-signed digit string as an integer; `none` on
any non-numeric input.  Models Python `int(...)` / pandas `astype("int")`
on the strings this client feeds them. -/
def parseInt? : List Char → Option Int
  | '-' :: cs => (parseNat? cs).map (fun n => -(n : Int))
  | cs => (parseNat? cs).map (fun n => (n : Int))

/-- Embedding of `rss.py` lines 128-133: strip `+` and `,` from the
traffic text, parse as an integer, and fall back to the original text
when the stripped string is not numeric. -/
def parse_traffic (text : List Char) : Sum Int (List Char) :=
  let t := removeChar ',' (removeChar '+' text)
  match parseInt? t with
  | some n => Sum.inl n
  | none => Sum.inr text

/-- Embedding of `rss.py` lines 126-135: the `traffic` field is absent
when the element is missing or has empty text, otherwise it is the
parsed traffic value. -/
def traffic_field : Option (List Char) → Option (Sum Int (List Char))
  | none => none
  | some t => if t = [] then none else some (parse_traffic t)

/-- ASCII lowercase-to-uppercase table. -/
def lowerUpperTable : List (Char × Char) :=
  [('a', 'A'), ('b', 'B'), ('c', 'C'), ('d', 'D'), ('e', 'E'), ('f', 'F'), ('g', 'G'),
   ('h', 'H'), ('i', 'I'), ('j', 'J'), ('k', 'K'), ('l', 'L'), ('m', 'M'), ('n', 'N'),
   ('o', 'O'), ('p', 'P'), ('q', 'Q'), ('r', 'R'), ('s', 'S'), ('t', 'T'), ('u', 'U'),
   ('v', 'V'), ('w', 'W'), ('x', 'X'), ('y', 'Y'), ('z', 'Z')]

/-- Uppercase one character, ASCII-restricted model of the case mapping
used by Python `str.upper()` on geo codes. -/
def upperChar (c : Char) : Char :=
  match lowerUpperTable.lookup c with
  | some u => u
  | none => c

/-- Embedding of `utils.py` `normalize_geo_code`: `return geo.upper()`,
with `str.upper()` modelled character-wise by `upperChar`. -/
def normalize_geo_code (g : String) : String :=
  String.mk (g.toList.map upperChar)

/-- `VALID_GPROP` from `config.py` line 35: the fixed enumeration of
Google property filters. -/
def VALID_GPROP : List String := ["", "images", "news", "youtube", "froogle"]

/-- One comparison item of the explore request (request.py lines 326 and
331). -/
structure ComparisonItem where
  keyword : String
  time : String
  geo : String
deriving DecidableEq

/-- The client's stored geography `self.geo`: the constructor and
`build_payload` store a single code string, but a caller may also have
stored a list of codes (request.py line 320 tests `isinstance(self.geo,
list)`). -/
inductive GeoSetting where
  | str (s : String)
  | list (gs : List String)
deriving DecidableEq

/-- `geo_list` at request.py line 320. -/
def geoToList : GeoSetting → List String
  | .str s => [s]
  | .list gs => gs

/-- The `req` part of the token payload (request.py lines 313-317). -/
structure TokenPayload where
  hl : String
  tz : Int
  comparisonItem : List ComparisonItem
  category : Int
  property : String
deriving DecidableEq

/-- A widget descriptor returned by the explore endpoint.  Only its `id`
is inspected by the client; `tag` stands for the rest of the opaque
dictionary (`request`, `token`, ...) so distinct descriptors can be told
apart. -/
structure Widget where
  id : String
  tag : Nat
deriving DecidableEq

/-- The mutable fields of a `TrendReq` instance that the embedded
operations read or write (request.py lines 94-123). -/
structure ClientState where
  hl : String
  tz : Int
  geo : GeoSetting
  kw_list : List String
  token_payload : Option TokenPayload
  interest_over_time_widget : Option Widget
  interest_by_region_widget : Option Widget
  related_topics_widget_list : List Widget
  related_queries_widget_list : List Widget
deriving DecidableEq

/-- A freshly constructed client with the defaults of `config.py`
(DEFAULT_HL = "en-US", DEFAULT_TZ = 360, DEFAULT_GEO = "") and no
widgets. -/
def initialState : ClientState :=
  { hl := "en-US", tz := 360, geo := .str "", kw_list := [],
    token_payload := none, interest_over_time_widget := none,
    interest_by_region_widget := none, related_topics_widget_list := [],
    related_queries_widget_list := [] }

/-- The errors `build_payload` can raise: the three ValueError sites of
request.py lines 299, 303, 306, and the IndexError Python raises at line
326 when a multirange timeframe list is too short. -/
inductive BuildError where
  | invalidGprop
  | tooManyKeywords
  | noKeywords
  | timeframeIndexError
deriving DecidableEq

/-- The `timeframe` argument: a single descriptor string or a list of
them (request.py line 323 tests `isinstance(timeframe, list)`). -/
inductive Timeframe where
  | single (t : String)
  | multi (ts : List String)
deriving DecidableEq

/-- `itertools.product(self.kw_list, geo_list)`: keyword-major,
geography-minor pair order (request.py lines 325 and 330). -/
def prodKG (kws geos : List String) : List (String × String) :=
  kws.flatMap (fun kw => geos.map (fun g => (kw, g)))

/-- The multirange loop of request.py lines 325-327: the item numbered
`i` by `enumerate` reads `timeframe[i]`; an out-of-range index raises
(Python IndexError), aborting the build.  The boolean records whether
every index was in range. -/
def assignTimeframes : List (String × String) → Nat → List String →
    List ComparisonItem × Bool
  | [], _, _ => ([], true)
  | p :: ps, i, ts =>
    match ts[i]? with
    | none => ([], false)
    | some t =>
      let rest := assignTimeframes ps (i + 1) ts
      (⟨p.1, t, p.2⟩ :: rest.1, rest.2)

/-- The comparison items `build_payload` appends for the given timeframe
argument (request.py lines 322-332). -/
def builtItems (kws geoList : List String) (tf : Timeframe) :
    List ComparisonItem × Bool :=
  match tf with
  | .single t => ((prodKG kws geoList).map (fun p => ⟨p.1, t, p.2⟩), true)
  | .multi ts => assignTimeframes (prodKG kws geoList) 0 ts

/-- Result of a `build_payload` call: the client state after the call
(Python mutates `self` in place, so partial mutations survive a raise),
the raised error if any, and how many network requests were issued (the
single explore POST of `_get_tokens`, performed only after validation
and payload construction succeed). -/
structure BuildOutcome where
  state : ClientState
  result : Except BuildError Unit
  networkCalls : Nat

/-- `geo or self.geo` at request.py line 310: Python falsiness keeps the
stored geography when the argument is the empty string. -/
def gOrSelf (st : ClientState) (geo : String) : GeoSetting :=
  if geo = "" then st.geo else .str geo

/-- The client state written by a validated `build_payload` call
(request.py lines 308-335): keywords and geography stored, token payload
holding the built comparison items. -/
def buildState (st : ClientState) (kw_list : List String) (cat : Int)
    (timeframe : Timeframe) (geo : String) (gprop : String) : ClientState :=
  { st with kw_list := kw_list, geo := gOrSelf st geo,
            token_payload := some ⟨st.hl, st.tz,
              (builtItems kw_list (geoToList (gOrSelf st geo)) timeframe).1,
              cat, gprop⟩ }

/-- Embedding of `build_payload` (request.py lines 275-338): validate
`gprop` against VALID_GPROP and the keyword count against [1,5], store
keywords, store `geo or self.geo`, build one comparison item per
(keyword, geography) pair of `product(kw_list, geo_list)`, then call
`_get_tokens` (the network step, counted here).  A multirange index
error raises after the state was mutated and before any network access. -/
def build_payload (st : ClientState) (kw_list : List String) (cat : Int)
    (timeframe : Timeframe) (geo : String) (gprop : String) : BuildOutcome :=
  if gprop ∉ VALID_GPROP then ⟨st, .error .invalidGprop, 0⟩
  else if kw_list.length > 5 then ⟨st, .error .tooManyKeywords, 0⟩
  else if kw_list.length = 0 then ⟨st, .error .noKeywords, 0⟩
  else if (builtItems kw_list (geoToList (gOrSelf st geo)) timeframe).2 then
    ⟨buildState st kw_list cat timeframe geo gprop, .ok (), 1⟩
  else
    ⟨buildState st kw_list cat timeframe geo gprop, .error .timeframeIndexError, 0⟩

/-- The comparison items held in the client's token payload after a
build ([] when no payload is held). -/
def payloadItems (o : BuildOutcome) : List ComparisonItem :=
  match o.state.token_payload with
  | some pl => pl.comparisonItem
  | none => []

/-- The parameter-validation errors of `build_payload`, raised before
any state change or network access. -/
def isParamError : Except BuildError Unit → Bool
  | .error .invalidGprop => true
  | .error .tooManyKeywords => true
  | .error .noKeywords => true
  | _ => false

/-- `leadingRun pat s`: `pat` occurs at the very start of `s`. -/
def leadingRun : List Char → List Char → Bool
  | [], _ => true
  | _ :: _, [] => false
  | a :: pa, b :: pb => a = b && leadingRun pa pb

/-- Character-level model of Python substring containment `pat in s`. -/
def containsSub (pat : List Char) : List Char → Bool
  | [] => leadingRun pat []
  | b :: bs => leadingRun pat (b :: bs) || containsSub pat bs

/-- Embedding of the widget-classification loop of `_get_tokens`
(request.py lines 360-372): every `TIMESERIES` widget overwrites the
time-series slot; a `GEO_MAP` widget fills the region slot only while
`first_region_token` is still true; widgets whose id contains
`RELATED_TOPICS` (respectively `RELATED_QUERIES`) are appended to the
corresponding list; anything else is ignored. -/
def classify_widgets : List Widget → ClientState → Bool → ClientState
  | [], st, _ => st
  | w :: ws, st, first_region_token =>
    if w.id = "TIMESERIES" then
      classify_widgets ws { st with interest_over_time_widget := some w }
        first_region_token
    else if w.id = "GEO_MAP" ∧ first_region_token then
      classify_widgets ws { st with interest_by_region_widget := some w } false
    else if containsSub "RELATED_TOPICS".toList w.id.toList then
      classify_widgets ws
        { st with related_topics_widget_list := st.related_topics_widget_list ++ [w] }
        first_region_token
    else if containsSub "RELATED_QUERIES".toList w.id.toList then
      classify_widgets ws
        { st with related_queries_widget_list := st.related_queries_widget_list ++ [w] }
        first_region_token
    else classify_widgets ws st first_region_token

/-- Embedding of `_get_tokens` (request.py lines 340-372) applied to the
widget list `ws` of the explore response: clear the two related widget
lists (lines 356-357), then classify the widgets in order starting with
`first_region_token = True`. -/
def get_tokens (st : ClientState) (ws : List Widget) : ClientState :=
  classify_widgets ws
    { st with related_queries_widget_list := [], related_topics_widget_list := [] }
    true

/-- A widget the loop stores in the time-series slot: `id == "TIMESERIES"`
(request.py line 364). -/
def isTimeseriesW (w : Widget) : Bool := w.id = "TIMESERIES"

/-- A widget eligible for the region slot: `id == "GEO_MAP"` (request.py
line 366). -/
def isGeoMapW (w : Widget) : Bool := w.id = "GEO_MAP"

/-- A widget the elif chain appends to the related-topics list: not
caught by the two preceding branches and containing `RELATED_TOPICS`
(request.py line 369). -/
def isRelTopicsW (w : Widget) : Bool :=
  if w.id = "TIMESERIES" then false
  else if w.id = "GEO_MAP" then false
  else containsSub "RELATED_TOPICS".toList w.id.toList

/-- A widget the elif chain appends to the related-queries list
(request.py line 371). -/
def isRelQueriesW (w : Widget) : Bool :=
  if w.id = "TIMESERIES" then false
  else if w.id = "GEO_MAP" then false
  else if containsSub "RELATED_TOPICS".toList w.id.toList then false
  else containsSub "RELATED_QUERIES".toList w.id.toList

/-- The errors of the embedded view-pull operations: the repository
raises `exceptions.ResponseError` with an explanatory message (the
spec's precondition-error category). -/
inductive PullError where
  | responseError (msg : String)
deriving DecidableEq

/-- Outcome of the guard-and-fetch phase of a view-pull operation:
either the raised error, or success after `networkCalls` GET requests. -/
structure PullOutcome where
  result : Except PullError Unit
  networkCalls : Nat

/-- Message of request.py lines 388-389. -/
def iotMissingMsg : String :=
  "No interest over time widget available. Call build_payload() first."

/-- Message of request.py lines 540-541. -/
def rtMissingMsg : String :=
  "No related topics widgets available. Call build_payload() first."

/-- Embedding of the guard and fetch structure of `interest_over_time`
(request.py lines 387-405): with no stored widget the call raises before
any network access; otherwise one GET request is issued. -/
def interest_over_time_guard (st : ClientState) : PullOutcome :=
  match st.interest_over_time_widget with
  | none => ⟨.error (.responseError iotMissingMsg), 0⟩
  | some _ => ⟨.ok (), 1⟩

/-- Embedding of the guard and fetch structure of `related_topics`
(request.py lines 539-568): with an empty widget list the call raises
before any network access; otherwise one GET request per held widget. -/
def related_topics_guard (st : ClientState) : PullOutcome :=
  if st.related_topics_widget_list = [] then
    ⟨.error (.responseError rtMissingMsg), 0⟩
  else ⟨.ok (), st.related_topics_widget_list.length⟩

/-- Outcome of one HTTP request inside `_get_google_cookie`
(request.py lines 159-181): a response carrying an NID cookie, a
response without one, a `requests.exceptions.ProxyError`, or any other
exception. -/
inductive FetchOutcome where
  | cookie (c : String)
  | noCookie
  | proxyError
  | otherError
deriving DecidableEq

/-- How `_get_google_cookie` ends: the cookie dict, the empty dict after
exhausting all attempts (request.py line 189), or the raised
`ResponseError` (request.py line 178). -/
inductive CookieResult where
  | ok (c : String)
  | empty
  | err (msg : String)
deriving DecidableEq

/-- Observable trace of a `_get_google_cookie` run: final result, number
of HTTP requests issued, the `time.sleep` durations in order, and the
proxy pool and index left behind. -/
structure CookieTrace where
  result : CookieResult
  httpCalls : Nat
  sleeps : List Nat
  finalProxies : List String
  finalIndex : Nat
deriving DecidableEq

/-- Embedding of the `while attempt < max_attempts` loop of
`_get_google_cookie` (request.py lines 145-189).  `fuel` is the number
of remaining iterations (the loop is entered with
`fuel = 3 - attempt`, so `fuel = 0` is the loop exit returning the
empty dict); `calls` numbers the HTTP requests, so `env calls` is the
outcome of the next one.  A ProxyError with more than one proxy pops
the proxy at the current index and resets the index to 0 when it fell
off the end; with at most one proxy it raises.  Every iteration then
increments `attempt` and sleeps `1 * attempt` when attempts remain. -/
def cookie_loop (env : Nat → FetchOutcome) :
    Nat → Nat → Nat → List String → Nat → List Nat → CookieTrace
  | 0, _, calls, proxies, idx, sleepsRev =>
    ⟨.empty, calls, sleepsRev.reverse, proxies, idx⟩
  | fuel + 1, attempt, calls, proxies, idx, sleepsRev =>
    match env calls with
    | .cookie c => ⟨.ok c, calls + 1, sleepsRev.reverse, proxies, idx⟩
    | .noCookie =>
      cookie_loop env fuel (attempt + 1) (calls + 1) proxies idx
        (if attempt + 1 < 3 then (attempt + 1) :: sleepsRev else sleepsRev)
    | .otherError =>
      cookie_loop env fuel (attempt + 1) (calls + 1) proxies idx
        (if attempt + 1 < 3 then (attempt + 1) :: sleepsRev else sleepsRev)
    | .proxyError =>
      if 1 < proxies.length then
        cookie_loop env fuel (attempt + 1) (calls + 1) (proxies.eraseIdx idx)
          (if (proxies.eraseIdx idx).length ≤ idx then 0 else idx)
          (if attempt + 1 < 3 then (attempt + 1) :: sleepsRev else sleepsRev)
      else ⟨.err "No working proxies available", calls + 1, sleepsRev.reverse, proxies, idx⟩

/-- Embedding of `_get_google_cookie` (request.py lines 135-189):
`max_attempts = 3`, `attempt = 0`, given the current proxy pool and
proxy index. -/
def get_google_cookie (env : Nat → FetchOutcome) (proxies : List String)
    (idx : Nat) : CookieTrace :=
  cookie_loop env 3 0 0 proxies idx []

/-- An environment in which every HTTP request raises a ProxyError. -/
def envAllProxyError : Nat → FetchOutcome := fun _ => .proxyError

/-- The reversed sleep list accumulated once the attempt counter has
reached `a` (sleeps of 1*1, 1*2, ... seconds, none after the final
attempt). -/
def attemptSleeps : Nat → List Nat
  | 0 => []
  | 1 => [1]
  | _ + 2 => [2, 1]

/-- Row-value split of the time-series decoder (request.py lines
418-419): `str(x).replace("[", "").replace("]", "").split(",")` at
character level. -/
def splitRowValue (raw : List Char) : List (List Char) :=
  splitComma (removeChar ']' (removeChar '[' raw))

/-- Column identity assigned at request.py line 425: the bare keyword
when one geography is in play, the (keyword, geography) pair otherwise. -/
inductive ColName where
  | kw (k : String)
  | kwGeo (k g : String)
deriving DecidableEq

/-- Embedding of the column-assembly loop of `interest_over_time`
(request.py lines 423-427): one integer column per comparison item of
`product(kw_list, geo_list)` in that order, column `idx` converting the
`idx`-th scalar of the split row value with `astype("int")`. -/
def timeseriesRowColumns (kws geos : List String) (raw : List Char) :
    List (ColName × Option Int) :=
  (prodKG kws geos).enum.map (fun p =>
    (if geos.length = 1 then ColName.kw p.2.1 else ColName.kwGeo p.2.1 p.2.2,
     ((splitRowValue raw)[p.1]?).bind parseInt?))

lemma lookup_mem : ∀ {l : List (Char × Char)} {c u : Char},
    l.lookup c = some u → (c, u) ∈ l := by
  intro l
  induction l with
  | nil => intro c u h; simp [List.lookup] at h
  | cons p ps ih =>
    intro c u h
    rcases p with ⟨k, v⟩
    by_cases hck : c = k
    · subst hck
      simp [List.lookup] at h
      subst h
      exact List.mem_cons_self _ _
    · have hb : (c == k) = false := beq_eq_false_iff_ne.mpr hck
      simp only [List.lookup, hb] at h
      exact List.mem_cons_of_mem _ (ih h)

lemma upperChar_idem (c : Char) : upperChar (upperChar c) = upperChar c := by
  unfold upperChar
  cases h : lowerUpperTable.lookup c with
  | none => simp [h]
  | some u =>
    have hm : (c, u) ∈ lowerUpperTable := lookup_mem h
    fin_cases hm <;> rfl

/-- C8: traffic parsing strips `+` and thousands separators from
`"500,000+"` giving the integer 500000, and passes the non-numeric
`"N/A"` through as the original string. -/
theorem c8_rss_traffic_parsing :
    traffic_field (some "500,000+".toList) = some (Sum.inl 500000) ∧
    traffic_field (some "N/A".toList) = some (Sum.inr "N/A".toList) := by
  decide

/-- C9: geo-code normalization is idempotent, and `"us-ca"` normalizes
to `"US-CA"`. -/
theorem c9_normalize_geo_code_idem (g : String) :
    normalize_geo_code (normalize_geo_code g) = normalize_geo_code g ∧
    normalize_geo_code "us-ca" = "US-CA" := by
  constructor
  · unfold normalize_geo_code
    have h : (String.mk (g.toList.map upperChar)).toList = g.toList.map upperChar := rfl
    rw [h, List.map_map]
    exact congrArg String.mk (List.map_congr_left (fun c _ => upperChar_idem c))
  · decide

lemma prodKG_cons (k : String) (ks geos : List String) :
    prodKG (k :: ks) geos = geos.map (fun g => (k, g)) ++ prodKG ks geos := by
  simp [prodKG]

lemma prodKG_length (kws geos : List String) :
    (prodKG kws geos).length = kws.length * geos.length := by
  induction kws with
  | nil => simp [prodKG]
  | cons k ks ih =>
    rw [prodKG_cons, List.length_append, List.length_map, ih, List.length_cons,
      Nat.succ_mul, Nat.add_comm]

lemma prodKG_getElem? (kws geos : List String) (i j : Nat)
    (hi : i < kws.length) (hj : j < geos.length) :
    (prodKG kws geos)[i * geos.length + j]? =
      some (kws.getD i "", geos.getD j "") := by
  induction kws generalizing i with
  | nil => simp at hi
  | cons k ks ih =>
    rw [prodKG_cons]
    cases i with
    | zero =>
      have hjlen : j < (geos.map (fun g => (k, g))).length := by simpa using hj
      rw [Nat.zero_mul, Nat.zero_add, List.getElem?_append_left hjlen,
        List.getElem?_map]
      simp [List.getElem?_eq_getElem hj, List.getD_eq_getElem _ _ hj]
    | succ i' =>
      have hidx : (i' + 1) * geos.length + j =
          geos.length + (i' * geos.length + j) := by ring
      rw [hidx, List.getElem?_append_right (by simp)]
      simp only [List.length_map, Nat.add_sub_cancel_left]
      have := ih i' (Nat.lt_of_succ_lt_succ hi)
      simpa using this

lemma assignTimeframes_spec (ps : List (String × String)) (i : Nat)
    (ts : List String) (h : i + ps.length ≤ ts.length) :
    (assignTimeframes ps i ts).2 = true ∧
    (assignTimeframes ps i ts).1.length = ps.length ∧
    ∀ k, k < ps.length →
      (assignTimeframes ps i ts).1[k]? =
        some ⟨(ps.getD k ("", "")).1, ts.getD (i + k) "", (ps.getD k ("", "")).2⟩ := by
  induction ps generalizing i with
  | nil => simp [assignTimeframes]
  | cons p ps' ih =>
    have hts : i < ts.length := by simp only [List.length_cons] at h; omega
    have hget : ts[i]? = some (ts.getD i "") := by
      rw [List.getD_eq_getElem _ _ hts]
      exact List.getElem?_eq_getElem hts
    obtain ⟨h1, h2, h3⟩ := ih (i + 1) (by simp only [List.length_cons] at h; omega)
    simp only [assignTimeframes, hget]
    refine ⟨h1, by simp [h2], ?_⟩
    intro k hk
    cases k with
    | zero => simp
    | succ k' =>
      have hk' : k' < ps'.length := by simpa using Nat.lt_of_succ_lt_succ hk
      have := h3 k' hk'
      simpa [Nat.add_assoc, Nat.add_comm 1 k', Nat.add_left_comm] using this

lemma build_payload_state_valid (st : ClientState) (kws : List String) (cat : Int)
    (tf : Timeframe) (geo gprop : String)
    (hg : gprop ∈ VALID_GPROP) (h5 : ¬ kws.length > 5) (h0 : ¬ kws.length = 0) :
    (build_payload st kws cat tf geo gprop).state =
      buildState st kws cat tf geo gprop := by
  unfold build_payload
  rw [if_neg (not_not_intro hg), if_neg h5, if_neg h0]
  split <;> rfl

lemma build_payload_result_valid (st : ClientState) (kws : List String) (cat : Int)
    (tf : Timeframe) (geo gprop : String)
    (hg : gprop ∈ VALID_GPROP) (h5 : ¬ kws.length > 5) (h0 : ¬ kws.length = 0)
    (hok : (builtItems kws (geoToList (gOrSelf st geo)) tf).2 = true) :
    (build_payload st kws cat tf geo gprop).result = .ok () := by
  unfold build_payload
  rw [if_neg (not_not_intro hg), if_neg h5, if_neg h0, if_pos hok]

/-- C1: for a keyword list of length 1-5 and any geography list,
`build_payload` produces one comparison item per (keyword, geography)
pair in keyword-major, geography-minor order: the item at position
`i * |geos| + j` pairs keyword `i` with geography `j`; and in multirange
mode that same item receives the timeframe at that position. -/
theorem c1_comparison_item_order (st : ClientState) (gs kws : List String)
    (cat : Int) (t : String) (ts : List String) (gprop : String)
    (hg : gprop ∈ VALID_GPROP) (h1 : 1 ≤ kws.length) (h5 : kws.length ≤ 5)
    (i j : Nat) (hi : i < kws.length) (hj : j < gs.length)
    (hlen : ts.length = kws.length * gs.length) :
    (payloadItems (build_payload { st with geo := .list gs } kws cat
        (.single t) "" gprop)).length = kws.length * gs.length ∧
    (payloadItems (build_payload { st with geo := .list gs } kws cat
        (.single t) "" gprop))[i * gs.length + j]? =
      some ⟨kws.getD i "", t, gs.getD j ""⟩ ∧
    (build_payload { st with geo := .list gs } kws cat
        (.multi ts) "" gprop).result = .ok () ∧
    (payloadItems (build_payload { st with geo := .list gs } kws cat
        (.multi ts) "" gprop))[i * gs.length + j]? =
      some ⟨kws.getD i "", ts.getD (i * gs.length + j) "", gs.getD j ""⟩ := by
  have h5' : ¬ kws.length > 5 := by omega
  have h0' : ¬ kws.length = 0 := by omega
  have hidx : i * gs.length + j < kws.length * gs.length := by
    calc i * gs.length + j < i * gs.length + gs.length := by omega
    _ = (i + 1) * gs.length := by ring
    _ ≤ kws.length * gs.length := Nat.mul_le_mul_right _ hi
  have hplen := prodKG_length kws gs
  have hgeo : gOrSelf { st with geo := .list gs } "" = .list gs := by
    simp [gOrSelf]
  have hS : payloadItems (build_payload { st with geo := .list gs } kws cat
      (.single t) "" gprop) =
      (prodKG kws gs).map (fun p => (⟨p.1, t, p.2⟩ : ComparisonItem)) := by
    unfold payloadItems
    rw [build_payload_state_valid _ _ _ _ _ _ hg h5' h0']
    unfold buildState
    rw [hgeo]
    rfl
  have hM : payloadItems (build_payload { st with geo := .list gs } kws cat
      (.multi ts) "" gprop) = (assignTimeframes (prodKG kws gs) 0 ts).1 := by
    unfold payloadItems
    rw [build_payload_state_valid _ _ _ _ _ _ hg h5' h0']
    unfold buildState
    rw [hgeo]
    rfl
  obtain ⟨hok, hlen2, hget⟩ := assignTimeframes_spec (prodKG kws gs) 0 ts
    (by rw [hplen, hlen]; simp)
  refine ⟨?_, ?_, ?_, ?_⟩
  · rw [hS]; simp [prodKG_length]
  · rw [hS, List.getElem?_map, prodKG_getElem? kws gs i j hi hj]; rfl
  · apply build_payload_result_valid _ _ _ _ _ _ hg h5' h0'
    rw [hgeo]
    exact hok
  · rw [hM]
    have hgetk := hget (i * gs.length + j) (by rw [hplen]; exact hidx)
    have hpair : (prodKG kws gs).getD (i * gs.length + j) ("", "") =
        (kws.getD i "", gs.getD j "") := by
      rw [List.getD_eq_getElem?_getD, prodKG_getElem? kws gs i j hi hj]
      rfl
    rw [hpair] at hgetk
    simpa using hgetk

/-- C1 witness: concrete instantiation with two keywords and two
geographies; item 2 (= 1*2+0) pairs the second keyword with the first
geography and receives timeframe 2. -/
theorem c1_comparison_item_order_witness :
    (payloadItems (build_payload { initialState with geo := .list ["US", "FR"] }
        ["a", "b"] 0 (.single "today 5-y") "" "")).length =
      ["a", "b"].length * ["US", "FR"].length ∧
    (payloadItems (build_payload { initialState with geo := .list ["US", "FR"] }
        ["a", "b"] 0 (.single "today 5-y") "" ""))[1 * ["US", "FR"].length + 0]? =
      some ⟨["a", "b"].getD 1 "", "today 5-y", ["US", "FR"].getD 0 ""⟩ ∧
    (build_payload { initialState with geo := .list ["US", "FR"] }
        ["a", "b"] 0 (.multi ["t0", "t1", "t2", "t3"]) "" "").result = .ok () ∧
    (payloadItems (build_payload { initialState with geo := .list ["US", "FR"] }
        ["a", "b"] 0 (.multi ["t0", "t1", "t2", "t3"]) "" ""))[1 * ["US", "FR"].length + 0]? =
      some ⟨["a", "b"].getD 1 "", ["t0", "t1", "t2", "t3"].getD (1 * ["US", "FR"].length + 0) "",
        ["US", "FR"].getD 0 ""⟩ :=
  c1_comparison_item_order initialState ["US", "FR"] ["a", "b"] 0 "today 5-y"
    ["t0", "t1", "t2", "t3"] "" (by decide) (by decide) (by decide)
    1 0 (by decide) (by decide) (by decide)

/-- C3: an empty or over-long keyword list, or a property filter outside
VALID_GPROP, makes `build_payload` fail with a parameter error and issue
no network request. -/
theorem c3_validation_before_network (st : ClientState) (kws : List String)
    (cat : Int) (tf : Timeframe) (geo gprop : String)
    (h : kws.length = 0 ∨ kws.length > 5 ∨ gprop ∉ VALID_GPROP) :
    isParamError (build_payload st kws cat tf geo gprop).result = true ∧
    (build_payload st kws cat tf geo gprop).networkCalls = 0 := by
  unfold build_payload
  by_cases hg : gprop ∉ VALID_GPROP
  · rw [if_pos hg]; exact ⟨rfl, rfl⟩
  · rw [if_neg hg]
    by_cases h5 : kws.length > 5
    · rw [if_pos h5]; exact ⟨rfl, rfl⟩
    · rw [if_neg h5]
      have h0 : kws.length = 0 := by tauto
      rw [if_pos h0]; exact ⟨rfl, rfl⟩

/-- C3 witness: the empty keyword list fails with a parameter error and
zero network calls. -/
theorem c3_validation_before_network_witness :
    isParamError (build_payload initialState [] 0 (.single "today 5-y") "" "").result = true ∧
    (build_payload initialState [] 0 (.single "today 5-y") "" "").networkCalls = 0 :=
  c3_validation_before_network initialState [] 0 (.single "today 5-y") "" "" (Or.inl rfl)

/-- C10: `self.geo = geo or self.geo` — on a valid build, an empty `geo`
argument leaves the stored geography unchanged and a non-empty one
overwrites it. -/
theorem c10_geo_or_self_geo (st : ClientState) (kws : List String) (cat : Int)
    (tf : Timeframe) (g gprop : String)
    (hg : gprop ∈ VALID_GPROP) (h1 : 1 ≤ kws.length) (h5 : kws.length ≤ 5)
    (hne : g ≠ "") :
    (build_payload st kws cat tf "" gprop).state.geo = st.geo ∧
    (build_payload st kws cat tf g gprop).state.geo = .str g := by
  have h5' : ¬ kws.length > 5 := by omega
  have h0' : ¬ kws.length = 0 := by omega
  constructor
  · rw [build_payload_state_valid _ _ _ _ _ _ hg h5' h0']
    simp [buildState, gOrSelf]
  · rw [build_payload_state_valid _ _ _ _ _ _ hg h5' h0']
    simp [buildState, gOrSelf, hne]

/-- C10 witness: with stored geography "US", building with geo="" keeps
"US" and building with geo="FR" stores "FR". -/
theorem c10_geo_or_self_geo_witness :
    (build_payload { initialState with geo := .str "US" } ["a"] 0
        (.single "today 5-y") "" "").state.geo = ({ initialState with geo := .str "US" } : ClientState).geo ∧
    (build_payload { initialState with geo := .str "US" } ["a"] 0
        (.single "today 5-y") "FR" "").state.geo = .str "FR" :=
  c10_geo_or_self_geo { initialState with geo := .str "US" } ["a"] 0
    (.single "today 5-y") "FR" "" (by decide) (by decide) (by decide) (by decide)

lemma classify_cons (w : Widget) (ws : List Widget) (st : ClientState) (fr : Bool) :
    classify_widgets (w :: ws) st fr =
      if w.id = "TIMESERIES" then
        classify_widgets ws { st with interest_over_time_widget := some w } fr
      else if w.id = "GEO_MAP" ∧ fr then
        classify_widgets ws { st with interest_by_region_widget := some w } false
      else if containsSub "RELATED_TOPICS".toList w.id.toList then
        classify_widgets ws
          { st with related_topics_widget_list := st.related_topics_widget_list ++ [w] } fr
      else if containsSub "RELATED_QUERIES".toList w.id.toList then
        classify_widgets ws
          { st with related_queries_widget_list := st.related_queries_widget_list ++ [w] } fr
      else classify_widgets ws st fr := rfl

lemma getLast?_or_cons {α : Type} (l : List α) :
    ∀ (w : α) (d : Option α), ((w :: l).getLast?).or d = (l.getLast?).or (some w) := by
  induction l with
  | nil => intro w d; rfl
  | cons x l' ih =>
    intro w d
    rw [List.getLast?_cons_cons, ih x d, ih x (some w)]

lemma geomap_not_ts {w : Widget} (h : w.id = "GEO_MAP") : ¬ w.id = "TIMESERIES" := by
  rw [h]; decide

lemma classify_iot : ∀ (ws : List Widget) (st : ClientState) (fr : Bool),
    (classify_widgets ws st fr).interest_over_time_widget =
      ((ws.filter isTimeseriesW).getLast?).or st.interest_over_time_widget := by
  intro ws
  induction ws with
  | nil => intro st fr; simp [classify_widgets]
  | cons w ws ih =>
    intro st fr
    by_cases h1 : w.id = "TIMESERIES"
    · rw [classify_cons, if_pos h1, ih]
      rw [List.filter_cons, if_pos (by simp [isTimeseriesW, h1]), getLast?_or_cons]
    · have hf : (w :: ws).filter isTimeseriesW = ws.filter isTimeseriesW := by
        rw [List.filter_cons, if_neg (by simp [isTimeseriesW, h1])]
      rw [classify_cons, if_neg h1, hf]
      by_cases h2 : w.id = "GEO_MAP" ∧ fr = true
      · rw [if_pos h2, ih]
      · rw [if_neg h2]
        by_cases h3 : containsSub "RELATED_TOPICS".toList w.id.toList = true
        · rw [if_pos h3, ih]
        · rw [if_neg h3]
          by_cases h4 : containsSub "RELATED_QUERIES".toList w.id.toList = true
          · rw [if_pos h4, ih]
          · rw [if_neg h4, ih]

lemma classify_ibr : ∀ (ws : List Widget) (st : ClientState) (fr : Bool),
    (classify_widgets ws st fr).interest_by_region_widget =
      (if fr then ((ws.filter isGeoMapW).head?).or st.interest_by_region_widget
       else st.interest_by_region_widget) := by
  intro ws
  induction ws with
  | nil => intro st fr; cases fr <;> simp [classify_widgets]
  | cons w ws ih =>
    intro st fr
    by_cases h1 : w.id = "TIMESERIES"
    · have hf : (w :: ws).filter isGeoMapW = ws.filter isGeoMapW := by
        rw [List.filter_cons, if_neg (by simp [isGeoMapW, h1])]
      rw [classify_cons, if_pos h1, ih, hf]
    · by_cases hgm : w.id = "GEO_MAP"
      · have hfp : (w :: ws).filter isGeoMapW = w :: ws.filter isGeoMapW := by
          rw [List.filter_cons, if_pos (by simp [isGeoMapW, hgm])]
        cases fr with
        | true =>
          rw [classify_cons, if_neg h1, if_pos ⟨hgm, rfl⟩, ih, hfp]
          simp
        | false =>
          rw [classify_cons, if_neg h1, if_neg (by simp)]
          by_cases h3 : containsSub "RELATED_TOPICS".toList w.id.toList = true
          · rw [if_pos h3, ih]; simp
          · rw [if_neg h3]
            by_cases h4 : containsSub "RELATED_QUERIES".toList w.id.toList = true
            · rw [if_pos h4, ih]; simp
            · rw [if_neg h4, ih]; simp
      · have hf : (w :: ws).filter isGeoMapW = ws.filter isGeoMapW := by
          rw [List.filter_cons, if_neg (by simp [isGeoMapW, hgm])]
        rw [classify_cons, if_neg h1, if_neg (by simp [hgm]), hf]
        by_cases h3 : containsSub "RELATED_TOPICS".toList w.id.toList = true
        · rw [if_pos h3, ih]
        · rw [if_neg h3]
          by_cases h4 : containsSub "RELATED_QUERIES".toList w.id.toList = true
          · rw [if_pos h4, ih]
          · rw [if_neg h4, ih]

lemma relTopicsW_true {w : Widget} (h1 : ¬ w.id = "TIMESERIES")
    (hgm : ¬ w.id = "GEO_MAP")
    (h3 : containsSub "RELATED_TOPICS".toList w.id.toList = true) :
    isRelTopicsW w = true := by
  unfold isRelTopicsW
  rw [if_neg h1, if_neg hgm]
  exact h3

lemma relTopicsW_false {w : Widget} (h1 : ¬ w.id = "TIMESERIES")
    (h3 : ¬ containsSub "RELATED_TOPICS".toList w.id.toList = true) :
    ¬ isRelTopicsW w = true := by
  unfold isRelTopicsW
  rw [if_neg h1]
  by_cases hgm : w.id = "GEO_MAP"
  · rw [if_pos hgm]; simp
  · rw [if_neg hgm]; exact h3

lemma relTopicsW_false_of_ts {w : Widget} (h1 : w.id = "TIMESERIES") :
    ¬ isRelTopicsW w = true := by
  unfold isRelTopicsW
  rw [if_pos h1]
  simp

lemma relTopicsW_false_of_gm {w : Widget} (h1 : ¬ w.id = "TIMESERIES")
    (hgm : w.id = "GEO_MAP") : ¬ isRelTopicsW w = true := by
  unfold isRelTopicsW
  rw [if_neg h1, if_pos hgm]
  simp

lemma relQueriesW_true {w : Widget} (h1 : ¬ w.id = "TIMESERIES")
    (hgm : ¬ w.id = "GEO_MAP")
    (h3 : ¬ containsSub "RELATED_TOPICS".toList w.id.toList = true)
    (h4 : containsSub "RELATED_QUERIES".toList w.id.toList = true) :
    isRelQueriesW w = true := by
  unfold isRelQueriesW
  rw [if_neg h1, if_neg hgm, if_neg h3]
  exact h4

lemma relQueriesW_false {w : Widget} (h1 : ¬ w.id = "TIMESERIES")
    (h4 : ¬ containsSub "RELATED_QUERIES".toList w.id.toList = true) :
    ¬ isRelQueriesW w = true := by
  unfold isRelQueriesW
  rw [if_neg h1]
  by_cases hgm : w.id = "GEO_MAP"
  · rw [if_pos hgm]; simp
  · rw [if_neg hgm]
    by_cases h3 : containsSub "RELATED_TOPICS".toList w.id.toList = true
    · rw [if_pos h3]; simp
    · rw [if_neg h3]; exact h4

lemma relQueriesW_false_of_ts {w : Widget} (h1 : w.id = "TIMESERIES") :
    ¬ isRelQueriesW w = true := by
  unfold isRelQueriesW
  rw [if_pos h1]
  simp

lemma relQueriesW_false_of_gm {w : Widget} (h1 : ¬ w.id = "TIMESERIES")
    (hgm : w.id = "GEO_MAP") : ¬ isRelQueriesW w = true := by
  unfold isRelQueriesW
  rw [if_neg h1, if_pos hgm]
  simp

lemma relQueriesW_false_of_topics {w : Widget} (h1 : ¬ w.id = "TIMESERIES")
    (h3 : containsSub "RELATED_TOPICS".toList w.id.toList = true) :
    ¬ isRelQueriesW w = true := by
  unfold isRelQueriesW
  rw [if_neg h1]
  by_cases hgm : w.id = "GEO_MAP"
  · rw [if_pos hgm]; simp
  · rw [if_neg hgm, if_pos h3]; simp

lemma classify_rt : ∀ (ws : List Widget) (st : ClientState) (fr : Bool),
    (classify_widgets ws st fr).related_topics_widget_list =
      st.related_topics_widget_list ++ ws.filter isRelTopicsW := by
  intro ws
  induction ws with
  | nil => intro st fr; simp [classify_widgets]
  | cons w ws ih =>
    intro st fr
    by_cases h1 : w.id = "TIMESERIES"
    · rw [classify_cons, if_pos h1, ih,
        List.filter_cons, if_neg (relTopicsW_false_of_ts h1)]
    · rw [classify_cons, if_neg h1]
      by_cases h2 : w.id = "GEO_MAP" ∧ fr = true
      · rw [if_pos h2, ih,
          List.filter_cons, if_neg (relTopicsW_false_of_gm h1 h2.1)]
      · rw [if_neg h2]
        by_cases h3 : containsSub "RELATED_TOPICS".toList w.id.toList = true
        · by_cases hgm : w.id = "GEO_MAP"
          · rw [hgm] at h3
            exact absurd h3 (by decide)
          · rw [if_pos h3, ih,
              List.filter_cons, if_pos (relTopicsW_true h1 hgm h3)]
            simp
        · rw [if_neg h3, List.filter_cons, if_neg (relTopicsW_false h1 h3)]
          by_cases h4 : containsSub "RELATED_QUERIES".toList w.id.toList = true
          · rw [if_pos h4, ih]
          · rw [if_neg h4, ih]

lemma classify_rq : ∀ (ws : List Widget) (st : ClientState) (fr : Bool),
    (classify_widgets ws st fr).related_queries_widget_list =
      st.related_queries_widget_list ++ ws.filter isRelQueriesW := by
  intro ws
  induction ws with
  | nil => intro st fr; simp [classify_widgets]
  | cons w ws ih =>
    intro st fr
    by_cases h1 : w.id = "TIMESERIES"
    · rw [classify_cons, if_pos h1, ih,
        List.filter_cons, if_neg (relQueriesW_false_of_ts h1)]
    · rw [classify_cons, if_neg h1]
      by_cases h2 : w.id = "GEO_MAP" ∧ fr = true
      · rw [if_pos h2, ih,
          List.filter_cons, if_neg (relQueriesW_false_of_gm h1 h2.1)]
      · rw [if_neg h2]
        by_cases h3 : containsSub "RELATED_TOPICS".toList w.id.toList = true
        · rw [if_pos h3, ih,
            List.filter_cons, if_neg (relQueriesW_false_of_topics h1 h3)]
        · rw [if_neg h3]
          by_cases h4 : containsSub "RELATED_QUERIES".toList w.id.toList = true
          · by_cases hgm : w.id = "GEO_MAP"
            · rw [hgm] at h4
              exact absurd h4 (by decide)
            · rw [if_pos h4, ih,
                List.filter_cons, if_pos (relQueriesW_true h1 hgm h3 h4)]
              simp
          · rw [if_neg h4, ih,
              List.filter_cons, if_neg (relQueriesW_false h1 h4)]

/-- C2 (amended): on every widget list, token-exchange classification
keeps the LAST `TIMESERIES` descriptor (each later one overwrites the
slot) and the FIRST `GEO_MAP` descriptor for the region view, never
failing on extra descriptors, and appends every `RELATED_TOPICS` /
`RELATED_QUERIES` descriptor to its list in widget-list order. -/
theorem c2_widget_classification (st : ClientState) (ws : List Widget) :
    (get_tokens st ws).interest_over_time_widget =
      ((ws.filter isTimeseriesW).getLast?).or st.interest_over_time_widget ∧
    (get_tokens st ws).interest_by_region_widget =
      ((ws.filter isGeoMapW).head?).or st.interest_by_region_widget ∧
    (get_tokens st ws).related_topics_widget_list = ws.filter isRelTopicsW ∧
    (get_tokens st ws).related_queries_widget_list = ws.filter isRelQueriesW := by
  unfold get_tokens
  refine ⟨?_, ?_, ?_, ?_⟩
  · rw [classify_iot]
  · rw [classify_ibr]
    simp
  · rw [classify_rt]
    simp
  · rw [classify_rq]
    simp

/-- C2 counterexample: with two `TIMESERIES` widgets in the response the
client holds the SECOND one, so the claimed first-wins rule is false for
the time-series slot. -/
theorem c2_last_timeseries_wins_counterexample :
    (get_tokens initialState
        [⟨"TIMESERIES", 0⟩, ⟨"TIMESERIES", 1⟩]).interest_over_time_widget =
      some ⟨"TIMESERIES", 1⟩ ∧
    ¬ (get_tokens initialState
        [⟨"TIMESERIES", 0⟩, ⟨"TIMESERIES", 1⟩]).interest_over_time_widget =
      some ⟨"TIMESERIES", 0⟩ := by decide

/-- A client already holding a time-series descriptor from an earlier
token exchange. -/
def stWithIot : ClientState :=
  { initialState with interest_over_time_widget := some ⟨"TIMESERIES", 7⟩ }

/-- C4 (amended): a token exchange rebuilds the two related widget lists
from the new response alone, but the time-series and region descriptors
are only overwritten when the new response contains a widget of that
kind — otherwise the previously held descriptor survives. -/
theorem c4_token_exchange_replacement (st : ClientState) (ws : List Widget) :
    (get_tokens st ws).related_topics_widget_list = ws.filter isRelTopicsW ∧
    (get_tokens st ws).related_queries_widget_list = ws.filter isRelQueriesW ∧
    (ws.filter isTimeseriesW = [] →
      (get_tokens st ws).interest_over_time_widget = st.interest_over_time_widget) ∧
    (ws.filter isGeoMapW = [] →
      (get_tokens st ws).interest_by_region_widget = st.interest_by_region_widget) := by
  unfold get_tokens
  refine ⟨?_, ?_, ?_, ?_⟩
  · rw [classify_rt]
    simp
  · rw [classify_rq]
    simp
  · intro h
    rw [classify_iot, h]
    rfl
  · intro h
    rw [classify_ibr, h]
    simp

/-- C4 witness: a response with no widgets leaves the lists empty and
the previously held time-series descriptor untouched. -/
theorem c4_token_exchange_replacement_witness :
    (get_tokens stWithIot []).related_topics_widget_list =
      List.filter isRelTopicsW [] ∧
    (get_tokens stWithIot []).interest_over_time_widget =
      stWithIot.interest_over_time_widget :=
  ⟨(c4_token_exchange_replacement stWithIot []).1,
   (c4_token_exchange_replacement stWithIot []).2.2.1 rfl⟩

/-- C4 counterexample: after a token exchange whose response contains no
TIMESERIES widget, the stale time-series descriptor from the previous
exchange is still held, contradicting the claimed full replacement. -/
theorem c4_stale_descriptor_counterexample :
    (get_tokens stWithIot []).interest_over_time_widget =
      some ⟨"TIMESERIES", 7⟩ ∧
    ¬ (get_tokens stWithIot []).interest_over_time_widget = none := by decide

/-- C5: with no stored time-series widget, `interest_over_time` raises an
error naming the missing `build_payload` call-order dependency before any
network access; likewise `related_topics` with an empty widget list. -/
theorem c5_precondition_guard (st : ClientState)
    (h1 : st.interest_over_time_widget = none)
    (h2 : st.related_topics_widget_list = []) :
    interest_over_time_guard st = ⟨.error (.responseError iotMissingMsg), 0⟩ ∧
    containsSub "build_payload".toList iotMissingMsg.toList = true ∧
    related_topics_guard st = ⟨.error (.responseError rtMissingMsg), 0⟩ ∧
    containsSub "build_payload".toList rtMissingMsg.toList = true := by
  refine ⟨?_, by decide, ?_, by decide⟩
  · unfold interest_over_time_guard
    rw [h1]
  · unfold related_topics_guard
    rw [if_pos h2]

/-- C5 witness: the freshly constructed client fails both pulls with the
guard errors and zero network calls. -/
theorem c5_precondition_guard_witness :
    interest_over_time_guard initialState =
      ⟨.error (.responseError iotMissingMsg), 0⟩ ∧
    containsSub "build_payload".toList iotMissingMsg.toList = true ∧
    related_topics_guard initialState =
      ⟨.error (.responseError rtMissingMsg), 0⟩ ∧
    containsSub "build_payload".toList rtMissingMsg.toList = true :=
  c5_precondition_guard initialState rfl rfl

lemma cookie_loop_succ (env : Nat → FetchOutcome) (fuel attempt calls : Nat)
    (proxies : List String) (idx : Nat) (sleepsRev : List Nat) :
    cookie_loop env (fuel + 1) attempt calls proxies idx sleepsRev =
      match env calls with
      | .cookie c => ⟨.ok c, calls + 1, sleepsRev.reverse, proxies, idx⟩
      | .noCookie =>
        cookie_loop env fuel (attempt + 1) (calls + 1) proxies idx
          (if attempt + 1 < 3 then (attempt + 1) :: sleepsRev else sleepsRev)
      | .otherError =>
        cookie_loop env fuel (attempt + 1) (calls + 1) proxies idx
          (if attempt + 1 < 3 then (attempt + 1) :: sleepsRev else sleepsRev)
      | .proxyError =>
        if 1 < proxies.length then
          cookie_loop env fuel (attempt + 1) (calls + 1) (proxies.eraseIdx idx)
            (if (proxies.eraseIdx idx).length ≤ idx then 0 else idx)
            (if attempt + 1 < 3 then (attempt + 1) :: sleepsRev else sleepsRev)
        else ⟨.err "No working proxies available", calls + 1, sleepsRev.reverse,
          proxies, idx⟩ := rfl

lemma cookie_loop_props (env : Nat → FetchOutcome) : ∀ (fuel attempt calls : Nat)
    (proxies : List String) (idx : Nat) (sleepsRev : List Nat),
    (cookie_loop env fuel attempt calls proxies idx sleepsRev).httpCalls ≤ calls + fuel ∧
    ((cookie_loop env fuel attempt calls proxies idx sleepsRev).result = .empty →
      (cookie_loop env fuel attempt calls proxies idx sleepsRev).httpCalls = calls + fuel) ∧
    (∀ msg, (cookie_loop env fuel attempt calls proxies idx sleepsRev).result = .err msg →
      msg = "No working proxies available" ∧
      (cookie_loop env fuel attempt calls proxies idx sleepsRev).finalProxies.length ≤ 1) := by
  intro fuel
  induction fuel with
  | zero =>
    intro a c p i s
    refine ⟨by simp [cookie_loop], by simp [cookie_loop], ?_⟩
    intro msg h
    simp [cookie_loop] at h
  | succ f ih =>
    intro a c p i s
    cases henv : env c with
    | cookie ck =>
      simp only [cookie_loop_succ, henv]
      refine ⟨by show c + 1 ≤ c + (f + 1); omega, by simp, ?_⟩
      intro msg h
      simp at h
    | noCookie =>
      simp only [cookie_loop_succ, henv]
      obtain ⟨i1, i2, i3⟩ := ih (a + 1) (c + 1) p i
        (if a + 1 < 3 then (a + 1) :: s else s)
      exact ⟨by omega, fun h => by have := i2 h; omega, i3⟩
    | otherError =>
      simp only [cookie_loop_succ, henv]
      obtain ⟨i1, i2, i3⟩ := ih (a + 1) (c + 1) p i
        (if a + 1 < 3 then (a + 1) :: s else s)
      exact ⟨by omega, fun h => by have := i2 h; omega, i3⟩
    | proxyError =>
      simp only [cookie_loop_succ, henv]
      by_cases hlen : 1 < p.length
      · rw [if_pos hlen]
        obtain ⟨i1, i2, i3⟩ := ih (a + 1) (c + 1) (p.eraseIdx i)
          (if (p.eraseIdx i).length ≤ i then 0 else i)
          (if a + 1 < 3 then (a + 1) :: s else s)
        exact ⟨by omega, fun h => by have := i2 h; omega, i3⟩
      · rw [if_neg hlen]
        refine ⟨by show c + 1 ≤ c + (f + 1); omega, by simp, ?_⟩
        intro msg h
        simp only [CookieResult.err.injEq] at h
        exact ⟨h.symm, by show p.length ≤ 1; omega⟩

lemma attemptSleeps_step (a : Nat) (h : a ≤ 2) :
    (if a + 1 < 3 then (a + 1) :: attemptSleeps a else attemptSleeps a) =
      attemptSleeps (a + 1) := by
  interval_cases a <;> decide

lemma cookie_loop_sleeps (env : Nat → FetchOutcome) : ∀ (fuel attempt calls : Nat)
    (proxies : List String) (idx : Nat), attempt + fuel = 3 →
    (cookie_loop env fuel attempt calls proxies idx
        (attemptSleeps attempt)).sleeps ∈ [([] : List Nat), [1], [1, 2]] := by
  intro fuel
  induction fuel with
  | zero =>
    intro a c p i ha
    have h3 : a = 3 := by omega
    subst h3
    simp [cookie_loop, attemptSleeps]
  | succ f ih =>
    intro a c p i ha
    have ha2 : a ≤ 2 := by omega
    cases henv : env c with
    | cookie ck =>
      simp only [cookie_loop_succ, henv]
      interval_cases a <;> simp [attemptSleeps]
    | noCookie =>
      simp only [cookie_loop_succ, henv]
      rw [attemptSleeps_step a ha2]
      exact ih (a + 1) (c + 1) p i (by omega)
    | otherError =>
      simp only [cookie_loop_succ, henv]
      rw [attemptSleeps_step a ha2]
      exact ih (a + 1) (c + 1) p i (by omega)
    | proxyError =>
      simp only [cookie_loop_succ, henv]
      by_cases hlen : 1 < p.length
      · rw [if_pos hlen, attemptSleeps_step a ha2]
        exact ih (a + 1) (c + 1) _ _ (by omega)
      · rw [if_neg hlen]
        interval_cases a <;> simp [attemptSleeps]

/-- C6 (amended): credential acquisition attempts at most 3 HTTP
requests with increasing sleeps (1 then 2 time units) between attempts;
a proxy-specific failure with at least two proxies in the pool removes
the failing proxy (resetting the index to 0 when it falls off the end)
but consumes a backoff attempt exactly like any other failure; a proxy
failure with at most one proxy is the terminal "no working proxies"
error; exhausting all attempts without a terminal error returns the
empty credential. -/
theorem c6_cookie_acquisition (env : Nat → FetchOutcome)
    (proxies : List String) (idx : Nat) :
    (get_google_cookie env proxies idx).httpCalls ≤ 3 ∧
    (get_google_cookie env proxies idx).sleeps ∈ [([] : List Nat), [1], [1, 2]] ∧
    ((get_google_cookie env proxies idx).result = .empty →
      (get_google_cookie env proxies idx).httpCalls = 3) ∧
    (∀ msg, (get_google_cookie env proxies idx).result = .err msg →
      msg = "No working proxies available" ∧
      (get_google_cookie env proxies idx).finalProxies.length ≤ 1) ∧
    (∀ fuel attempt calls sleepsRev, env calls = .proxyError → 1 < proxies.length →
      cookie_loop env (fuel + 1) attempt calls proxies idx sleepsRev =
        cookie_loop env fuel (attempt + 1) (calls + 1) (proxies.eraseIdx idx)
          (if (proxies.eraseIdx idx).length ≤ idx then 0 else idx)
          (if attempt + 1 < 3 then (attempt + 1) :: sleepsRev else sleepsRev)) := by
  obtain ⟨p1, p2, p3⟩ := cookie_loop_props env 3 0 0 proxies idx []
  refine ⟨p1, cookie_loop_sleeps env 3 0 0 proxies idx rfl, p2, p3, ?_⟩
  intro fuel attempt calls sleepsRev henv hlen
  rw [cookie_loop_succ, henv]
  rw [if_pos hlen]

/-- C6 witness: with four proxies and every request failing with a
ProxyError, the run stays within 3 HTTP calls, sleeps 1 then 2, used up
all attempts (result is the empty credential), and with a single failing
proxy the terminal error leaves the one-element pool. -/
theorem c6_cookie_acquisition_witness :
    (get_google_cookie envAllProxyError ["p0", "p1", "p2", "p3"] 0).httpCalls ≤ 3 ∧
    (get_google_cookie envAllProxyError ["p0", "p1", "p2", "p3"] 0).sleeps ∈
      [([] : List Nat), [1], [1, 2]] ∧
    (get_google_cookie envAllProxyError ["p0", "p1", "p2", "p3"] 0).httpCalls = 3 ∧
    ("No working proxies available" = "No working proxies available" ∧
      (get_google_cookie envAllProxyError ["q0"] 0).finalProxies.length ≤ 1) :=
  ⟨(c6_cookie_acquisition envAllProxyError ["p0", "p1", "p2", "p3"] 0).1,
   (c6_cookie_acquisition envAllProxyError ["p0", "p1", "p2", "p3"] 0).2.1,
   (c6_cookie_acquisition envAllProxyError ["p0", "p1", "p2", "p3"] 0).2.2.1 (by decide),
   (c6_cookie_acquisition envAllProxyError ["q0"] 0).2.2.2.1
     "No working proxies available" (by decide)⟩

/-- C6 counterexample: with four proxies and every request failing with
a ProxyError, the code consumes all three backoff attempts on proxy
failures (sleeping 1 and 2 between them) and returns the empty
credential while a proxy is still left in the pool — the claimed
"retry immediately without consuming a backoff attempt, terminal only
when no proxies remain" behaviour would never have exhausted the
attempts here. -/
theorem c6_proxy_error_consumes_attempt_counterexample :
    (get_google_cookie envAllProxyError ["p0", "p1", "p2", "p3"] 0).result = .empty ∧
    (get_google_cookie envAllProxyError ["p0", "p1", "p2", "p3"] 0).httpCalls = 3 ∧
    (get_google_cookie envAllProxyError ["p0", "p1", "p2", "p3"] 0).sleeps = [1, 2] ∧
    (get_google_cookie envAllProxyError ["p0", "p1", "p2", "p3"] 0).finalProxies = ["p3"] ∧
    ¬ (get_google_cookie envAllProxyError ["p0", "p1", "p2", "p3"] 0).result =
      .err "No working proxies available" := by decide

/-- C7: for the raw value string "[50,62]" and two comparison items, the
bracketed multi-value split yields exactly two integer-valued columns
with values 50 and 62, assigned in comparison-item (keyword-major,
geography-minor) order. -/
theorem c7_bracket_split_two_items (kws geos : List String)
    (h2 : (prodKG kws geos).length = 2) :
    (timeseriesRowColumns kws geos "[50,62]".toList).map Prod.snd =
      [some (50 : Int), some (62 : Int)] ∧
    (timeseriesRowColumns kws geos "[50,62]".toList).map Prod.fst =
      (prodKG kws geos).map (fun p =>
        if geos.length = 1 then ColName.kw p.1 else ColName.kwGeo p.1 p.2) := by
  obtain ⟨a, b, hab⟩ := List.length_eq_two.mp h2
  unfold timeseriesRowColumns
  rw [hab]
  have he : ([a, b] : List (String × String)).enum = [(0, a), (1, b)] := rfl
  rw [he]
  constructor
  · simp only [List.map_cons, List.map_nil]
    decide
  · simp only [List.map_cons, List.map_nil]

/-- C7 witness: keywords ["x", "y"] with a single geography give columns
("x", 50) and ("y", 62) in that order. -/
theorem c7_bracket_split_two_items_witness :
    (timeseriesRowColumns ["x", "y"] [""] "[50,62]".toList).map Prod.snd =
      [some (50 : Int), some (62 : Int)] ∧
    (timeseriesRowColumns ["x", "y"] [""] "[50,62]".toList).map Prod.fst =
      (prodKG ["x", "y"] [""]).map (fun p =>
        if ([""] : List String).length = 1 then ColName.kw p.1
        else ColName.kwGeo p.1 p.2) :=
  c7_bracket_split_two_items ["x", "y"] [""] (by decide)
